import Mathlib

/-!
# Verification of the FocusFlow timer calculation core

Shallow embedding of `src/wasm/timer_calculation.rs` (the only component of
the repository with algorithmic content; the Tauri shell in `src-tauri` is
integration glue with no logic).

Modelling conventions:
* Rust `u32` / `u64` values are `Nat`s; wrapping arithmetic (release-mode
  overflow semantics) is made explicit with `% 2^32` / `% 2^64` exactly where
  the Rust types force it (`as u32` casts, `u64` subtraction, `u32`
  multiplication).
* `js_sys::Date::now()` readings are passed in explicitly as a `now : Nat`
  millisecond timestamp, so every clock-dependent operation is a pure
  function of the state and the reading.
* Rust `f64` arithmetic on progress percentages is modelled with exact
  rational arithmetic (`Rat`); every concrete value the spec mentions
  (0.0, 50.0, 100 ...) is exactly representable in binary floating point and
  the claims at stake are order/equality facts preserved by this reading.
* Rust's `format!("{:02}", n)` decimal rendering is embedded as an explicit
  most-significant-digit-first rendering with zero padding to width two.
-/

namespace FocusFlow

/-- 2^32, the modulus of Rust `u32` arithmetic. -/
def U32 : Nat := 4294967296

/-- 2^64, the modulus of Rust `u64` arithmetic. -/
def U64 : Nat := 18446744073709551616

/-- Wrapping `u64` subtraction `a - b` (Rust release-mode semantics). -/
def wsub64 (a b : Nat) : Nat := (a % U64 + U64 - b % U64) % U64

/-- `enum TimerState { Focus = 0, Break = 1, MicroBreak = 2 }`. -/
inductive TimerState where
  | Focus
  | Break
  | MicroBreak
deriving DecidableEq

/-- Decimal digits of `n`, least significant first, with explicit fuel so the
definition is structural (`fuel ≥ n` suffices; matches Rust's `u32` decimal
rendering loop). -/
def decDigits : Nat → Nat → List Nat
  | 0, _ => []
  | fuel + 1, n => if n = 0 then [] else n % 10 :: decDigits fuel (n / 10)

/-- Decimal rendering of a non-negative integer, most significant digit
first, as produced by Rust's `Display` for `u32`. -/
def natRepr (n : Nat) : String :=
  if n = 0 then "0"
  else ((decDigits n n).reverse.map (fun d => Char.ofNat (48 + d))).asString

/-- Rust's `{:02}` format: pad the decimal rendering with `0` on the left to
a minimum width of two. -/
def pad2 (n : Nat) : String :=
  if (natRepr n).length < 2 then "0" ++ natRepr n else natRepr n

/-- `struct TimerCalculation` — the snapshot value returned by `update`. -/
structure TimerCalculation where
  time : Nat
  formatted_time : String
  progress : Rat
  remaining : Nat
  state : TimerState
deriving DecidableEq

/-- `struct TimerCalculator` — the mutable timer engine.
`start_time` is a `u64` millisecond timestamp; `duration` and
`current_time` are `u32` second counts. -/
structure TimerCalculator where
  start_time : Nat
  duration : Nat
  current_time : Nat
  state : TimerState
deriving DecidableEq

namespace TimerCalculator

/-- `TimerCalculator::new(duration, state)`; the clock reading taken inside
the constructor is the explicit `now` argument. -/
def new (duration : Nat) (state : TimerState) (now : Nat) : TimerCalculator :=
  { start_time := now, duration := duration, current_time := duration, state := state }

/-- The elapsed-seconds computation shared by `update` and
`optimize_display_update`: `((now - self.start_time) / 1000) as u32`. -/
def elapsed_seconds (c : TimerCalculator) (now : Nat) : Nat :=
  wsub64 now c.start_time / 1000 % U32

/-- `TimerCalculator::format_time` (the `&self` receiver is unused in the
source): `format!("{:02}:{:02}", seconds / 60, seconds % 60)`. -/
def format_time (seconds : Nat) : String :=
  pad2 (seconds / 60) ++ ":" ++ pad2 (seconds % 60)

/-- `TimerCalculator::calculate_progress`:
`if self.duration == 0 { 0.0 } else { (elapsed / self.duration) * 100.0 }`. -/
def calculate_progress (c : TimerCalculator) (elapsed : Nat) : Rat :=
  if c.duration = 0 then 0 else (elapsed : Rat) / (c.duration : Rat) * 100

/-- `TimerCalculator::update`: recomputes elapsed time from the clock,
caches `duration.saturating_sub(elapsed)` into `current_time`, and returns
the updated engine together with the snapshot. Nat subtraction is exactly
`u32::saturating_sub` here since `elapsed < 2^32` and `duration < 2^32`. -/
def update (c : TimerCalculator) (now : Nat) : TimerCalculator × TimerCalculation :=
  let elapsed := c.elapsed_seconds now
  let current := c.duration - elapsed
  ({ c with current_time := current },
   { time := current
     formatted_time := format_time current
     progress := c.calculate_progress elapsed
     remaining := current
     state := c.state })

/-- `TimerCalculator::reset(new_duration, new_state)` with the clock reading
explicit. -/
def reset (_c : TimerCalculator) (new_duration : Nat) (new_state : TimerState)
    (now : Nat) : TimerCalculator :=
  { start_time := now, duration := new_duration, current_time := new_duration,
    state := new_state }

/-- `TimerCalculator::pause`: returns the cached `current_time`; the engine
is returned unchanged (the Rust body only reads `self.current_time`). -/
def pause (c : TimerCalculator) : Nat × TimerCalculator :=
  (c.current_time, c)

/-- `TimerCalculator::resume(remaining_time)`: re-anchors to `now`, sets both
`duration` and `current_time` to `remaining_time`; `state` is untouched. -/
def resume (c : TimerCalculator) (remaining_time : Nat) (now : Nat) : TimerCalculator :=
  { c with start_time := now, duration := remaining_time, current_time := remaining_time }

/-- `TimerCalculator::calculate_progress_percentage` (pure, `&self` unused):
`if total == 0 { 0.0 } else { (current / total) * 100.0 }`. -/
def calculate_progress_percentage (current total : Nat) : Rat :=
  if total = 0 then 0 else (current : Rat) / (total : Rat) * 100

/-- `TimerCalculator::calculate_next_state(completed)`:
`match self.state { Focus if completed => Break, Break if completed => Focus,
MicroBreak if completed => Focus, _ => self.state }`. -/
def calculate_next_state (c : TimerCalculator) (completed : Bool) : TimerState :=
  match c.state, completed with
  | .Focus, true => .Break
  | .Break, true => .Focus
  | .MicroBreak, true => .Focus
  | s, false => s

end TimerCalculator

/-- The body of the closure in `calculate_multiple_timers` for index `i` and
duration `duration`: synthesizes `start_time = now - i * 1000` (u64 wrapping),
recomputes `elapsed = ((now - start_time) / 1000) as u32`, and builds a
snapshot with phase `Focus`. -/
def timer_at (now i duration : Nat) : TimerCalculation :=
  let start_time := wsub64 now (i * 1000)
  let elapsed := wsub64 now start_time / 1000 % U32
  let current_time := duration - elapsed
  { time := current_time
    formatted_time := pad2 (current_time / 60) ++ ":" ++ pad2 (current_time % 60)
    progress := if duration = 0 then 0 else (elapsed : Rat) / (duration : Rat) * 100
    remaining := current_time
    state := .Focus }

/-- `durations.iter().enumerate().map(...)` with the running index made
explicit. -/
def calculate_multiple_timers_from (now : Nat) : Nat → List Nat → List TimerCalculation
  | _, [] => []
  | i, d :: rest => timer_at now i d :: calculate_multiple_timers_from now (i + 1) rest

/-- `calculate_multiple_timers(durations)` with the single `Date::now()`
reading explicit. -/
def calculate_multiple_timers (now : Nat) (durations : List Nat) : List TimerCalculation :=
  calculate_multiple_timers_from now 0 durations

/-- `optimize_memory_usage(current_memory)`:
`match { 0..=1000 => m, 1001..=10000 => m * 8 / 10, _ => m * 7 / 10 }` in
`u32` arithmetic, so the products wrap modulo 2^32. -/
def optimize_memory_usage (current_memory : Nat) : Nat :=
  if current_memory ≤ 1000 then current_memory
  else if current_memory ≤ 10000 then current_memory * 8 % U32 / 10
  else current_memory * 7 % U32 / 10

/-- States of a `TimerCalculator` reachable through the public constructor and
mutating operations, with arbitrary `u64` clock readings and `u32`-ranged
duration arguments. -/
inductive Reachable : TimerCalculator → Prop where
  | new_engine : ∀ duration state now, duration < U32 →
      Reachable (TimerCalculator.new duration state now)
  | step_update : ∀ c now, Reachable c → Reachable (c.update now).1
  | step_reset : ∀ c d s now, d < U32 → Reachable c → Reachable (c.reset d s now)
  | step_pause : ∀ c, Reachable c → Reachable c.pause.2
  | step_resume : ∀ c r now, r < U32 → Reachable c → Reachable (c.resume r now)

/-! ## Helper lemmas -/

/-- A number at least `10 ^ k` has more than `k` decimal digits. -/
lemma decDigits_length_ge :
    ∀ fuel n k, n ≤ fuel → 10 ^ k ≤ n → k + 1 ≤ (decDigits fuel n).length := by
  intro fuel
  induction fuel with
  | zero =>
    intro n k hn hk
    have hpos : 0 < 10 ^ k := pow_pos (by norm_num) k
    omega
  | succ fuel ih =>
    intro n k hn hk
    have hpos : 0 < 10 ^ k := pow_pos (by norm_num) k
    have hn0 : n ≠ 0 := by omega
    simp only [decDigits, hn0, if_false, List.length_cons]
    cases k with
    | zero => omega
    | succ j =>
      have h1 : 10 ^ j ≤ n / 10 := by
        rw [Nat.le_div_iff_mul_le (by norm_num)]
        calc 10 ^ j * 10 = 10 ^ (j + 1) := (pow_succ 10 j).symm
          _ ≤ n := hk
      have h2 : n / 10 ≤ fuel := by
        have : n / 10 < n := Nat.div_lt_self (by omega) (by norm_num)
        omega
      have := ih (n / 10) j h2 h1
      omega

/-- The decimal rendering of `n ≥ 100` has at least three characters. -/
lemma natRepr_length_ge_three (n : Nat) (h : 100 ≤ n) : 3 ≤ (natRepr n).length := by
  have hn0 : n ≠ 0 := by omega
  have hd : 3 ≤ (decDigits n n).length := decDigits_length_ge n n 2 le_rfl h
  simp only [natRepr, hn0, if_false, List.length_asString, List.length_map,
    List.length_reverse]
  exact hd

/-- Zero-padding to width two does not shorten a rendering that already has
three or more digits. -/
lemma pad2_length_of_ge_100 (n : Nat) (h : 100 ≤ n) : 2 < (pad2 n).length := by
  have h3 := natRepr_length_ge_three n h
  have hnot : ¬ (natRepr n).length < 2 := by omega
  simp only [pad2, hnot, if_false]
  omega

/-- When the whole-second elapsed value fits in `u32` — and the clock reading
and anchor are in `u64` range with the reading not before the anchor — the
`as u32` cast in `update` is the identity. -/
lemma elapsed_seconds_of_no_wrap (c : TimerCalculator) (now : Nat)
    (h1 : now < U64) (h2 : c.start_time ≤ now)
    (h3 : (now - c.start_time) / 1000 < U32) :
    c.elapsed_seconds now = (now - c.start_time) / 1000 := by
  simp only [TimerCalculator.elapsed_seconds, wsub64, U32, U64] at *
  omega

/-- Closed form of wrapping `u64` subtraction on in-range operands. -/
lemma wsub64_eq (a b : Nat) (ha : a < U64) (hb : b < U64) :
    wsub64 a b = if b ≤ a then a - b else a + U64 - b := by
  simp only [wsub64, U64] at *
  split <;> omega

/-- The synthetic staggered anchor in `calculate_multiple_timers` makes the
computed elapsed time exactly the element index, for any `u64` clock reading
and any index in `usize` (32-bit on the wasm target) range: the two wrapping
`u64` subtractions cancel. -/
lemma timer_at_elapsed (now i : Nat) (h1 : now < U64) (hi : i < U32) :
    wsub64 now (wsub64 now (i * 1000)) / 1000 % U32 = i := by
  have hi1000 : i * 1000 < U64 := by simp only [U32, U64] at hi ⊢; omega
  have hinner := wsub64_eq now (i * 1000) h1 hi1000
  by_cases hle : i * 1000 ≤ now
  · rw [if_pos hle] at hinner
    rw [hinner]
    have hb : now - i * 1000 < U64 := by omega
    have houter := wsub64_eq now (now - i * 1000) h1 hb
    rw [if_pos (by omega : now - i * 1000 ≤ now)] at houter
    rw [houter]
    have hsub : now - (now - i * 1000) = i * 1000 := by omega
    have hdiv : i * 1000 / 1000 = i := by omega
    rw [hsub, hdiv]
    exact Nat.mod_eq_of_lt hi
  · rw [if_neg hle] at hinner
    rw [hinner]
    have hb : now + U64 - i * 1000 < U64 := by omega
    have houter := wsub64_eq now (now + U64 - i * 1000) h1 hb
    rw [if_neg (by omega : ¬ (now + U64 - i * 1000 ≤ now))] at houter
    rw [houter]
    have hsub : now + U64 - (now + U64 - i * 1000) = i * 1000 := by omega
    have hdiv : i * 1000 / 1000 = i := by omega
    rw [hsub, hdiv]
    exact Nat.mod_eq_of_lt hi

/-- Field-level description of `timer_at`. -/
lemma timer_at_spec (now i d : Nat) (h1 : now < U64) (hi : i < U32) :
    (timer_at now i d).remaining = d - i ∧
    (timer_at now i d).time = d - i ∧
    (timer_at now i d).progress = (if d = 0 then 0 else (i : Rat) / (d : Rat) * 100) ∧
    (timer_at now i d).state = .Focus := by
  have he := timer_at_elapsed now i h1 hi
  refine ⟨?_, ?_, ?_, rfl⟩ <;> simp only [timer_at, he]

/-- The batch helper preserves the length of its input. -/
lemma calculate_multiple_timers_from_length (now : Nat) :
    ∀ (l : List Nat) (j : Nat), (calculate_multiple_timers_from now j l).length = l.length := by
  intro l
  induction l with
  | nil => intro j; rfl
  | cons d rest ih => intro j; simp [calculate_multiple_timers_from, ih]

/-- Index-wise description of the batch helper: element `i` of the output is
`timer_at` applied at running index `j + i` to element `i` of the input. -/
lemma calculate_multiple_timers_from_getElem (now : Nat) :
    ∀ (l : List Nat) (j i : Nat),
      (calculate_multiple_timers_from now j l)[i]? =
        (l[i]?).map (fun d => timer_at now (j + i) d) := by
  intro l
  induction l with
  | nil => intro j i; simp [calculate_multiple_timers_from]
  | cons d rest ih =>
    intro j i
    cases i with
    | zero => simp [calculate_multiple_timers_from]
    | succ k =>
      have harg : j + (k + 1) = (j + 1) + k := by omega
      simp only [calculate_multiple_timers_from, List.getElem?_cons_succ, harg]
      exact ih (j + 1) k

/-! ## Claim theorems -/

/-- Claim C2: `calculate_next_state` realizes the full transition table —
`(Focus, true) ↦ Break`, `(Break, true) ↦ Focus`, `(MicroBreak, true) ↦ Focus`,
`(p, false) ↦ p` — and its result depends only on the engine's phase (the
embedding types it as a pure function of the engine, mutating nothing). -/
theorem calculate_next_state_table (c : TimerCalculator) (b : Bool) :
    (c.state = .Focus → c.calculate_next_state true = .Break) ∧
    (c.state = .Break → c.calculate_next_state true = .Focus) ∧
    (c.state = .MicroBreak → c.calculate_next_state true = .Focus) ∧
    c.calculate_next_state false = c.state ∧
    (∀ c' : TimerCalculator, c'.state = c.state →
      c'.calculate_next_state b = c.calculate_next_state b) := by
  obtain ⟨st, dur, ct, s⟩ := c
  refine ⟨?_, ?_, ?_, ?_, ?_⟩
  · intro h; cases s <;> simp_all [TimerCalculator.calculate_next_state]
  · intro h; cases s <;> simp_all [TimerCalculator.calculate_next_state]
  · intro h; cases s <;> simp_all [TimerCalculator.calculate_next_state]
  · cases s <;> rfl
  · intro c' h
    obtain ⟨st', dur', ct', s'⟩ := c'
    simp only at h
    subst h
    cases s' <;> cases b <;> rfl

/-- Witness for C2 at a concrete engine: a Focus-phase engine transitions to
Break on completion. -/
theorem calculate_next_state_table_witness :
    TimerCalculator.calculate_next_state ⟨0, 1500, 1500, .Focus⟩ true = .Break :=
  (calculate_next_state_table ⟨0, 1500, 1500, .Focus⟩ true).1 rfl

/-- Claim C6: `format_time` is a pure total function producing zero-padded
`MM:SS` with minutes `s / 60` and seconds `s % 60`; `125 ↦ "02:05"`,
`0 ↦ "00:00"`, `3599 ↦ "59:59"`; and for inputs of at least 100 minutes the
minutes field is rendered with more than two digits. -/
theorem format_time_spec :
    TimerCalculator.format_time 125 = "02:05" ∧
    TimerCalculator.format_time 0 = "00:00" ∧
    TimerCalculator.format_time 3599 = "59:59" ∧
    (∀ s : Nat, TimerCalculator.format_time s = pad2 (s / 60) ++ ":" ++ pad2 (s % 60)) ∧
    (∀ s : Nat, 6000 ≤ s → 2 < (pad2 (s / 60)).length) := by
  refine ⟨by decide, by decide, by decide, fun s => rfl, fun s hs => ?_⟩
  exact pad2_length_of_ge_100 _ (by omega)

/-- Witness for C6 at a concrete input: 6125 seconds is 102 minutes and its
minutes field has three digits. -/
theorem format_time_spec_witness : 2 < (pad2 (6125 / 60)).length :=
  format_time_spec.2.2.2.2 6125 (by decide)

/-- Claim C8: `pause` returns the cached `current_time`, reads no clock
(its embedding takes no `now` argument), leaves the engine unchanged, and is
idempotent: two consecutive calls return the same value. -/
theorem pause_pure_idempotent (c : TimerCalculator) :
    c.pause.1 = c.current_time ∧ c.pause.2 = c ∧ c.pause.2.pause.1 = c.pause.1 :=
  ⟨rfl, rfl, rfl⟩

/-- Claim C9: neither `update` nor `resume` changes the engine's phase, and
the snapshot returned by `update` reports the unchanged phase. -/
theorem phase_unchanged_by_update_resume (c : TimerCalculator) (now r : Nat) :
    (c.update now).1.state = c.state ∧ (c.update now).2.state = c.state ∧
    (c.resume r now).state = c.state :=
  ⟨rfl, rfl, rfl⟩

/-- Claim C10: `new`, `reset` and `resume` set `current_time = duration`,
`pause` changes nothing, and `update` caches a saturating subtraction from
`duration`; consequently every reachable engine state satisfies
`current_time ≤ duration`. -/
theorem remaining_le_duration_invariant :
    (∀ d s now, (TimerCalculator.new d s now).current_time =
      (TimerCalculator.new d s now).duration) ∧
    (∀ (c : TimerCalculator) d s now, (c.reset d s now).current_time =
      (c.reset d s now).duration) ∧
    (∀ (c : TimerCalculator) r now, (c.resume r now).current_time =
      (c.resume r now).duration) ∧
    (∀ c : TimerCalculator, c.pause.2 = c) ∧
    (∀ (c : TimerCalculator) now, (c.update now).1.current_time =
      (c.update now).1.duration - c.elapsed_seconds now) ∧
    (∀ c : TimerCalculator, Reachable c → c.current_time ≤ c.duration) := by
  refine ⟨fun _ _ _ => rfl, fun _ _ _ _ => rfl, fun _ _ _ => rfl, fun _ => rfl,
    fun _ _ => rfl, ?_⟩
  intro c h
  induction h with
  | new_engine d s now hd => exact le_rfl
  | step_update c now _ _ => exact Nat.sub_le _ _
  | step_reset c d s now hd _ _ => exact le_rfl
  | step_pause c _ ih => exact ih
  | step_resume c r now hr _ _ => exact le_rfl

/-- Claim C1 counterexample: for an engine anchored at millisecond timestamp
1700000000000 with duration 1, the clock reading 2^32 seconds later yields
the whole-second elapsed value 2^32, which exceeds the duration — yet
`update` returns remaining 1, not 0, because the `as u32` cast wraps the
elapsed value to 0. -/
theorem update_remaining_wraps_counterexample :
    (5994967296000 - 1700000000000) / 1000 = 4294967296 ∧
    (1 : Nat) < 4294967296 ∧
    (TimerCalculator.update ⟨1700000000000, 1, 1, .Focus⟩ 5994967296000).2.remaining = 1 :=
  ⟨by norm_num, by norm_num, by decide⟩

/-- Claim C1 (amended): for every engine state and every `u64` clock reading
not before the anchor whose whole-second elapsed value fits in `u32` (below
2^32 seconds ≈ 136 years; beyond that the `as u32` cast truncates elapsed
modulo 2^32), `update` caches `duration - elapsed` saturating at zero and
returns that value as both `time` and `remaining`; in particular elapsed
above the duration yields exactly 0. -/
theorem update_remaining_saturating (c : TimerCalculator) (now : Nat)
    (h1 : now < U64) (h2 : c.start_time ≤ now)
    (h3 : (now - c.start_time) / 1000 < U32) :
    (c.update now).1.current_time = c.duration - (now - c.start_time) / 1000 ∧
    (c.update now).2.time = c.duration - (now - c.start_time) / 1000 ∧
    (c.update now).2.remaining = c.duration - (now - c.start_time) / 1000 ∧
    (c.duration < (now - c.start_time) / 1000 → (c.update now).2.remaining = 0) := by
  have he := elapsed_seconds_of_no_wrap c now h1 h2 h3
  have hrem : (c.update now).2.remaining = c.duration - c.elapsed_seconds now := rfl
  have hcur : (c.update now).1.current_time = c.duration - c.elapsed_seconds now := rfl
  have htime : (c.update now).2.time = c.duration - c.elapsed_seconds now := rfl
  rw [he] at hrem hcur htime
  exact ⟨hcur, htime, hrem, fun h => by rw [hrem]; omega⟩

/-- Witness for C1 (amended) at a concrete engine: 25 seconds elapsed on a
10-second timer saturates the remaining time to 0. -/
theorem update_remaining_saturating_witness :
    (TimerCalculator.update ⟨1700000000000, 10, 10, .Focus⟩ 1700000025000).2.remaining = 0 :=
  (update_remaining_saturating ⟨1700000000000, 10, 10, .Focus⟩ 1700000025000
    (by decide) (by decide) (by decide)).2.2.2 (by decide)

/-- Claim C3 counterexample: `calculate_progress` does not clamp, so a
1-second timer queried 2 seconds after its anchor reports progress 200,
outside the claimed interval [0, 100]. -/
theorem update_progress_exceeds_100 :
    (TimerCalculator.update ⟨0, 1, 1, .Focus⟩ 2000).2.progress = 200 ∧
    ¬ (TimerCalculator.update ⟨0, 1, 1, .Focus⟩ 2000).2.progress ≤ 100 := by
  constructor <;>
    norm_num [TimerCalculator.update, TimerCalculator.elapsed_seconds,
      TimerCalculator.calculate_progress, wsub64, U32, U64]

/-- Claim C3 (amended): the snapshot's progress is 0 when the duration is 0,
is always non-negative, and is at most 100 whenever the computed elapsed time
does not exceed the duration; when elapsed exceeds the duration the
unclamped formula yields values above 100. -/
theorem update_progress_range (c : TimerCalculator) (now : Nat) :
    (c.duration = 0 → (c.update now).2.progress = 0) ∧
    0 ≤ (c.update now).2.progress ∧
    (c.elapsed_seconds now ≤ c.duration → (c.update now).2.progress ≤ 100) := by
  have hstruct : (c.update now).2.progress = c.calculate_progress (c.elapsed_seconds now) :=
    rfl
  rw [hstruct]
  unfold TimerCalculator.calculate_progress
  by_cases hd : c.duration = 0
  · simp [hd]
  · simp only [hd, if_false]
    refine ⟨fun h => h.elim, by positivity, fun hle => ?_⟩
    have hd' : (0 : Rat) < (c.duration : Rat) := by
      exact_mod_cast Nat.pos_of_ne_zero hd
    have he' : ((c.elapsed_seconds now : Rat)) ≤ (c.duration : Rat) := by
      exact_mod_cast hle
    have hratio : (c.elapsed_seconds now : Rat) / (c.duration : Rat) ≤ 1 :=
      (div_le_one hd').mpr he'
    calc (c.elapsed_seconds now : Rat) / (c.duration : Rat) * 100
        ≤ 1 * 100 := by
          exact mul_le_mul_of_nonneg_right hratio (by norm_num)
      _ = 100 := by norm_num

/-- Witness for C3 (amended) at a concrete engine: 1 second elapsed on a
2-second timer gives a progress between 0 and 100. -/
theorem update_progress_range_witness :
    0 ≤ (TimerCalculator.update ⟨0, 2, 2, .Focus⟩ 1000).2.progress ∧
    (TimerCalculator.update ⟨0, 2, 2, .Focus⟩ 1000).2.progress ≤ 100 :=
  ⟨(update_progress_range ⟨0, 2, 2, .Focus⟩ 1000).2.1,
   (update_progress_range ⟨0, 2, 2, .Focus⟩ 1000).2.2 (by decide)⟩

/-- Claim C4: `calculate_progress_percentage` returns 0 when the total is 0
and otherwise the unclamped ratio `(current / total) * 100`; the spec's three
sample points hold, and some input with `current > total` produces a value
strictly above 100. -/
theorem calculate_progress_percentage_spec :
    (∀ current : Nat, TimerCalculator.calculate_progress_percentage current 0 = 0) ∧
    (∀ current total : Nat, total ≠ 0 →
      TimerCalculator.calculate_progress_percentage current total =
        (current : Rat) / (total : Rat) * 100) ∧
    TimerCalculator.calculate_progress_percentage 0 100 = 0 ∧
    TimerCalculator.calculate_progress_percentage 50 100 = 50 ∧
    TimerCalculator.calculate_progress_percentage 100 0 = 0 ∧
    (∃ current total : Nat, total ≠ 0 ∧ total < current ∧
      100 < TimerCalculator.calculate_progress_percentage current total) := by
  refine ⟨fun current => rfl,
    fun current total ht => by
      simp [TimerCalculator.calculate_progress_percentage, ht],
    by norm_num [TimerCalculator.calculate_progress_percentage],
    by norm_num [TimerCalculator.calculate_progress_percentage],
    rfl,
    ⟨150, 100, by norm_num, by norm_num,
      by norm_num [TimerCalculator.calculate_progress_percentage]⟩⟩

/-- Witness for C4 at a concrete input with a nonzero total. -/
theorem calculate_progress_percentage_spec_witness :
    TimerCalculator.calculate_progress_percentage 25 200 = (25 : Rat) / (200 : Rat) * 100 :=
  calculate_progress_percentage_spec.2.1 25 200 (by decide)

/-- Claim C5 counterexample: for the valid `u32` input 10^9 the `×0.7` branch
computes `current_memory * 7` in wrapping `u32` arithmetic, so the result is
270503270, not 0.7 × 10^9 = 700000000. -/
theorem optimize_memory_usage_overflow :
    optimize_memory_usage 1000000000 = 270503270 ∧
    1000000000 * 7 / 10 = 700000000 ∧
    optimize_memory_usage 1000000000 ≠ 1000000000 * 7 / 10 :=
  ⟨by decide, by decide, by decide⟩

/-- Claim C5 (amended): `estimate_memory_budget` returns the input unchanged
on 0–1000, `⌊n·8/10⌋` on 1001–10000, and `⌊n·7/10⌋` above 10000 as long as
`n·7` fits in `u32` (n ≤ 613566756); for larger inputs the product wraps
modulo 2^32 and the result is `⌊(n·7 mod 2^32)/10⌋`. The spec's three sample
points hold. -/
theorem optimize_memory_usage_spec :
    (∀ n : Nat,
      (n ≤ 1000 → optimize_memory_usage n = n) ∧
      (1000 < n → n ≤ 10000 → optimize_memory_usage n = n * 8 / 10) ∧
      (10000 < n → n * 7 < U32 → optimize_memory_usage n = n * 7 / 10) ∧
      (10000 < n → optimize_memory_usage n = n * 7 % U32 / 10)) ∧
    optimize_memory_usage 500 = 500 ∧
    optimize_memory_usage 5000 = 4000 ∧
    optimize_memory_usage 20000 = 14000 := by
  refine ⟨fun n => ⟨?_, ?_, ?_, ?_⟩, by decide, by decide, by decide⟩
  · intro h
    simp [optimize_memory_usage, h]
  · intro h1 h2
    have hn : ¬ n ≤ 1000 := by omega
    rw [optimize_memory_usage, if_neg hn, if_pos h2]
    have hlt : n * 8 < U32 := by simp only [U32]; omega
    rw [Nat.mod_eq_of_lt hlt]
  · intro h1 h2
    have hn : ¬ n ≤ 1000 := by omega
    have hn2 : ¬ n ≤ 10000 := by omega
    rw [optimize_memory_usage, if_neg hn, if_neg hn2, Nat.mod_eq_of_lt h2]
  · intro h1
    have hn : ¬ n ≤ 1000 := by omega
    have hn2 : ¬ n ≤ 10000 := by omega
    rw [optimize_memory_usage, if_neg hn, if_neg hn2]

/-- Witness for C5 (amended): the non-wrapping `×0.7` branch at 20000. -/
theorem optimize_memory_usage_spec_witness :
    optimize_memory_usage 20000 = 20000 * 7 / 10 :=
  (optimize_memory_usage_spec.1 20000).2.2.1 (by decide) (by decide)

/-- Claim C7: for every duration list, `u64` clock reading, and index `i` in
`usize` range holding value `d`, the output has the same length and order as
the input and its `i`-th element is computed with synthetic elapsed time
exactly `i`: remaining (and time) `d - i` saturating at zero, progress 0 when
`d = 0` and `(i / d) * 100` otherwise, and phase always `Focus`. -/
theorem calculate_multiple_timers_spec (now : Nat) (durations : List Nat) (i d : Nat)
    (h1 : now < U64) (hi : i < U32) (hd : durations[i]? = some d) :
    (calculate_multiple_timers now durations).length = durations.length ∧
    (calculate_multiple_timers now durations)[i]? = some (timer_at now i d) ∧
    (timer_at now i d).remaining = d - i ∧
    (timer_at now i d).time = d - i ∧
    (timer_at now i d).progress = (if d = 0 then 0 else (i : Rat) / (d : Rat) * 100) ∧
    (timer_at now i d).state = .Focus := by
  have hlen := calculate_multiple_timers_from_length now durations 0
  have hget := calculate_multiple_timers_from_getElem now durations 0 i
  rw [hd] at hget
  simp only [Nat.zero_add, Option.map_some] at hget
  have hts := timer_at_spec now i d h1 hi
  exact ⟨hlen, hget, hts.1, hts.2.1, hts.2.2.1, hts.2.2.2⟩

/-- Witness for C7 on a concrete two-element batch: index 1 with duration 5
has one second of synthetic elapsed time. -/
theorem calculate_multiple_timers_spec_witness :
    (calculate_multiple_timers 1700000000000 [7, 5]).length = 2 ∧
    (calculate_multiple_timers 1700000000000 [7, 5])[1]? =
      some (timer_at 1700000000000 1 5) ∧
    (timer_at 1700000000000 1 5).remaining = 4 := by
  have h := calculate_multiple_timers_spec 1700000000000 [7, 5] 1 5
    (by decide) (by decide) (by decide)
  exact ⟨h.1, h.2.1, by rw [h.2.2.1]⟩

/-- Witness for C10: a freshly constructed engine satisfies the invariant. -/
theorem remaining_le_duration_invariant_witness :
    (TimerCalculator.new 1500 .Focus 1700000000000).current_time ≤
      (TimerCalculator.new 1500 .Focus 1700000000000).duration :=
  remaining_le_duration_invariant.2.2.2.2.2 _
    (Reachable.new_engine 1500 .Focus 1700000000000 (by decide))

end FocusFlow
